import Mathlib

/-!
Shallow embedding of `src/scripts/xrp_simulator.py` (class
`XRPConstructionSimulator`): amount conversion, memo encoding, transaction
construction (`send_payment`, `create_escrow`), the wallet-creation log, and
the milestone payment flow `simulate_construction_payment_flow`.

Modelling conventions:
* Python integers are `Int`/`Nat`; XRP quantities passed to `xrp_to_drops`
  are `ℚ` (covering the `int`/`Decimal` inputs the SDK accepts).
* A Python function that can raise an exception which escapes to the caller
  is an `Except`; exceptions caught inside the function are not `Except`.
* Byte strings are `List Nat` with every entry < 256; a memo string is
  represented by its UTF-8 byte sequence (the code encodes it to bytes at
  once, so the bytes are the content the round-trip must preserve).
* The ledger network itself is external; its responses are inputs
  (`SubmitResult`, `FlowEnv`) and its balance-update semantics are modelled
  from the spec where a claim needs them.
-/

deriving instance DecidableEq for Except

namespace XRPSim

/-- Ripple epoch offset (Jan 1, 2000, seconds since Unix epoch), the constant
`RIPPLE_EPOCH = 946684800` in `create_escrow`. -/
def RIPPLE_EPOCH : Int := 946684800

/-- Errors raised by the SDK amount conversion `xrpl.utils.xrp_to_drops`. -/
inductive XRPError where
  | negativeXRP
  | aboveMaxXRP
  | subDropPrecision
  deriving DecidableEq

/-- Largest representable XRP quantity (10^11 XRP). -/
def MAX_XRP : ℚ := 100000000000

/-- Drops per XRP: the minor-unit scale. -/
def DROPS_PER_XRP : ℚ := 1000000

/-- Model of the external SDK function `xrpl.utils.xrp_to_drops`: converts an
XRP quantity to its exact integer drops (minor-unit) value, raising for
negative input, input above the network maximum, or input finer than one
drop. -/
def xrp_to_drops (x : ℚ) : Except XRPError Int :=
  if x < 0 then .error .negativeXRP
  else if MAX_XRP < x then .error .aboveMaxXRP
  else if (x * DROPS_PER_XRP).den = 1 then .ok (x * DROPS_PER_XRP).num
  else .error .subDropPrecision

/-! ### Memo encoding (`send_payment` / `create_escrow` memo blocks) -/

/-- Lower-case hex digit for `n < 16`, as produced by Python `bytes.hex()`. -/
def hexDigit (n : Nat) : Char :=
  if n < 10 then Char.ofNat (48 + n) else Char.ofNat (87 + n)

/-- Two hex digits of one byte. -/
def byteToHex (b : Nat) : List Char := [hexDigit (b / 16), hexDigit (b % 16)]

/-- `bytes.hex()`: the hex string of a byte sequence. -/
def bytesToHex (bs : List Nat) : List Char :=
  bs.foldr (fun b acc => byteToHex b ++ acc) []

/-- Value of one hex digit character (`bytes.fromhex` direction). -/
def hexDigitVal (c : Char) : Option Nat :=
  if 48 ≤ c.toNat ∧ c.toNat ≤ 57 then some (c.toNat - 48)
  else if 97 ≤ c.toNat ∧ c.toNat ≤ 102 then some (c.toNat - 87)
  else none

/-- Decode a hex string back to bytes (`bytes.fromhex`); `none` on odd length
or a non-hex character. -/
def hexToBytes : List Char → Option (List Nat)
  | [] => some []
  | c1 :: c2 :: rest =>
    match hexDigitVal c1, hexDigitVal c2, hexToBytes rest with
    | some h, some l, some bs => some ((16 * h + l) :: bs)
    | _, _, _ => none
  | [_] => none

/-- UTF-8 bytes of an ASCII string (the fixed category tags are ASCII, where
UTF-8 bytes coincide with code points). -/
def strBytes (s : String) : List Nat := s.toList.map Char.toNat

/-- One memo slot of a transaction: hex-encoded `MemoData` and `MemoType`. -/
structure Memo where
  memoData : List Char
  memoType : List Char
  deriving DecidableEq

/-- The memo block of `send_payment`: a memo slot is attached only when the
memo string is truthy (non-empty); `MemoType` is the fixed tag
`"construction-payment"`. -/
def paymentMemos (memoBytes : List Nat) : Option Memo :=
  if memoBytes = [] then none
  else some ⟨bytesToHex memoBytes, bytesToHex (strBytes "construction-payment")⟩

/-- The memo block of `create_escrow`: same shape, tag
`"construction-escrow"`. -/
def escrowMemos (memoBytes : List Nat) : Option Memo :=
  if memoBytes = [] then none
  else some ⟨bytesToHex memoBytes, bytesToHex (strBytes "construction-escrow")⟩

/-! ### Transaction construction -/

/-- The `Payment` transaction `send_payment` builds before submitting. -/
structure PaymentTx where
  account : String
  destination : String
  amount : Int
  memos : Option Memo
  deriving DecidableEq

/-- The `EscrowCreate` transaction `create_escrow` builds before submitting. -/
structure EscrowTx where
  account : String
  destination : String
  amount : Int
  finish_after : Int
  memos : Option Memo
  deriving DecidableEq

/-- Construction phase of `send_payment` (everything before the `try` block):
`xrp_to_drops` can raise, which escapes to the caller; otherwise the payment
transaction is produced. -/
def buildPayment (account destination : String) (amount_xrp : ℚ)
    (memoBytes : List Nat) : Except XRPError PaymentTx :=
  match xrp_to_drops amount_xrp with
  | .error e => .error e
  | .ok drops =>
    .ok { account := account, destination := destination, amount := drops,
          memos := paymentMemos memoBytes }

/-- `finish_after = current_time + days_until_release * 24 * 60 * 60 -
RIPPLE_EPOCH` as computed in `create_escrow`. -/
def finishAfter (current_time days_until_release : Int) : Int :=
  current_time + days_until_release * 24 * 60 * 60 - RIPPLE_EPOCH

/-- Construction phase of `create_escrow` (everything before the `try`
block): no validation of `days_until_release` occurs; only `xrp_to_drops`
can raise. -/
def buildEscrow (account destination : String) (amount_xrp : ℚ)
    (current_time days_until_release : Int) (memoBytes : List Nat) :
    Except XRPError EscrowTx :=
  match xrp_to_drops amount_xrp with
  | .error e => .error e
  | .ok drops =>
    .ok { account := account, destination := destination, amount := drops,
          finish_after := finishAfter current_time days_until_release,
          memos := escrowMemos memoBytes }

/-! ### Submission (`submit_and_wait` and the `try` blocks) -/

/-- What one call to the external `submit_and_wait` does: either it returns a
validated response carrying the ledger outcome code (`TransactionResult`)
and the transaction hash, or it raises (network error, timeout, rejection
raised as an exception). -/
inductive SubmitResult where
  | response (transactionResult : String) (hash : String)
  | raised
  deriving DecidableEq

/-- Network-dependent behaviour one `send_payment`/`create_escrow` call sees:
the `submit_and_wait` outcome and whether the `get_balance` call made inside
`send_payment`'s `try` block (after a successful payment) raises. -/
structure NetEnv where
  submit : SubmitResult
  balanceRaises : Bool
  deriving DecidableEq

/-- Whether the submission response reports the success code `tesSUCCESS`. -/
def SubmitResult.isTesSuccess : SubmitResult → Bool
  | .response transactionResult _ => transactionResult = "tesSUCCESS"
  | .raised => false

/-- `send_payment`: construction (which can raise to the caller), then the
`try` block — on `tesSUCCESS` it reads the hash, prints, queries the sender
balance (still inside `try`, so a raise there is caught and yields `None`)
and returns the hash; on any other outcome or a caught exception it returns
`None`. -/
def send_payment (account destination : String) (amount_xrp : ℚ)
    (memoBytes : List Nat) (env : NetEnv) : Except XRPError (Option String) :=
  match buildPayment account destination amount_xrp memoBytes with
  | .error e => .error e
  | .ok _tx =>
    .ok (match env.submit with
      | .raised => none
      | .response transactionResult hash =>
        if transactionResult = "tesSUCCESS" then
          if env.balanceRaises then none else some hash
        else none)

/-- The value `send_payment`'s `try` block produces for a given network
behaviour (the inner expression of `send_payment`, named for reuse). -/
def paymentReturn (env : NetEnv) : Option String :=
  match env.submit with
  | .raised => none
  | .response transactionResult hash =>
    if transactionResult = "tesSUCCESS" then
      if env.balanceRaises then none else some hash
    else none

/-- The value `create_escrow`'s `try` block produces for a given submission
outcome. -/
def escrowReturn : SubmitResult → Option String
  | .raised => none
  | .response transactionResult hash =>
    if transactionResult = "tesSUCCESS" then some hash else none

/-- `create_escrow`: construction (which can raise to the caller), then the
`try` block — the hash on `tesSUCCESS`, `None` on any other outcome or a
caught exception. No balance query happens inside its `try` block. -/
def create_escrow (account destination : String) (amount_xrp : ℚ)
    (current_time days_until_release : Int) (memoBytes : List Nat)
    (env : NetEnv) : Except XRPError (Option String) :=
  match buildEscrow account destination amount_xrp current_time
      days_until_release memoBytes with
  | .error e => .error e
  | .ok _tx =>
    .ok (match env.submit with
      | .raised => none
      | .response transactionResult hash =>
        if transactionResult = "tesSUCCESS" then some hash else none)

/-! ### Wallet-creation console output -/

/-- The lines `create_wallet` prints, as functions of the label and of the
wallet's address and seed. -/
def create_wallet_log (label address seed : String) : List String :=
  ["\n✅ Created " ++ label,
   "   Address: " ++ address,
   "   Seed: " ++ seed,
   "   ⚠️  SAVE THIS SEED - IT WILL NOT BE SHOWN AGAIN"]

/-! ### The milestone flow `simulate_construction_payment_flow` -/

/-- Outcome the network hands one flow step: committed (`tesSUCCESS`),
a hard rejection (non-success result returned), or indeterminate (an
exception — timeout or dropped connection — caught inside the step). -/
inductive Outcome where
  | committed
  | rejected
  | indeterminate
  deriving DecidableEq

/-- What the step function returns to the flow for an outcome: the hash for
a committed step, `None` otherwise (`send_payment`/`create_escrow` map both
rejection and a caught exception to `None`). -/
def observe : Outcome → Option Unit
  | .committed => some ()
  | .rejected => none
  | .indeterminate => none

/-- Participant balances (in XRP units) of the three wallets. -/
structure Balances where
  owner : Int
  gc : Int
  sub : Int
  deriving DecidableEq

/-- Modelled from the spec: the external ledger's balance effect of a
committed direct payment — the amount moves from payer to payee (network
fees ignored, as the spec's scenario does). The repository only queries
balances over RPC; the update rule itself lives in the XRPL network. -/
def applyGcPayment (b : Balances) (amt : Int) : Balances :=
  { b with owner := b.owner - amt, gc := b.gc + amt }

/-- Modelled from the spec: balance effect of the committed GC-to-
subcontractor payment. -/
def applySubPayment (b : Balances) (amt : Int) : Balances :=
  { b with gc := b.gc - amt, sub := b.sub + amt }

/-- Modelled from the spec: balance effect of a committed `EscrowCreate` —
the escrowed amount leaves the owner's available balance and is locked until
release (it is credited to no one yet). -/
def applyEscrowCreate (b : Balances) (amt : Int) : Balances :=
  { b with owner := b.owner - amt }

/-- The environment one run of `simulate_construction_payment_flow` faces:
whether faucet funding succeeds and what it grants, and the network outcome
of each of the three ledger steps. -/
structure FlowEnv where
  fundOk : Bool
  initialFund : Int
  escrowOutcome : Outcome
  payment1Outcome : Outcome
  payment2Outcome : Outcome
  deriving DecidableEq

/-- Observable trace of one run: which ledger steps were executed, the value
each returned, whether the run reached its final-balances section, and the
balances snapshotted there (`none` when the run returned early). -/
structure FlowTrace where
  escrowExecuted : Bool
  escrowResult : Option Unit
  payment1Executed : Bool
  payment1Result : Option Unit
  payment2Executed : Bool
  payment2Result : Option Unit
  completed : Bool
  finalBalances : Option Balances
  deriving DecidableEq

/-- `simulate_construction_payment_flow`, step for step: abort (`return`)
when funding fails; run `create_escrow` (50 XRP, owner to GC) and abort when
it returns `None`; run `send_payment` (25 XRP, owner to GC) and — its result
unchecked — run `send_payment` (10 XRP, GC to subcontractor); finally query
and print all three balances. Balance effects of committed steps follow the
spec-modelled ledger rules above. -/
def simulate_construction_payment_flow (env : FlowEnv) : FlowTrace :=
  if env.fundOk = false then
    { escrowExecuted := false, escrowResult := none,
      payment1Executed := false, payment1Result := none,
      payment2Executed := false, payment2Result := none,
      completed := false, finalBalances := none }
  else
    let b0 : Balances := { owner := env.initialFund, gc := 0, sub := 0 }
    let escrowResult := observe env.escrowOutcome
    let b1 := if env.escrowOutcome = .committed then applyEscrowCreate b0 50 else b0
    if escrowResult = none then
      { escrowExecuted := true, escrowResult := escrowResult,
        payment1Executed := false, payment1Result := none,
        payment2Executed := false, payment2Result := none,
        completed := false, finalBalances := none }
    else
      let p1 := observe env.payment1Outcome
      let b2 := if env.payment1Outcome = .committed then applyGcPayment b1 25 else b1
      let p2 := observe env.payment2Outcome
      let b3 := if env.payment2Outcome = .committed then applySubPayment b2 10 else b2
      { escrowExecuted := true, escrowResult := escrowResult,
        payment1Executed := true, payment1Result := p1,
        payment2Executed := true, payment2Result := p2,
        completed := true, finalBalances := some b3 }

/-- Replacing every indeterminate network outcome by a hard rejection, for
comparing how the flow treats the two. -/
def collapseOutcome : Outcome → Outcome
  | .indeterminate => .rejected
  | o => o

/-- `collapseOutcome` applied to each step outcome of an environment. -/
def collapseEnv (env : FlowEnv) : FlowEnv :=
  { env with escrowOutcome := collapseOutcome env.escrowOutcome,
             payment1Outcome := collapseOutcome env.payment1Outcome,
             payment2Outcome := collapseOutcome env.payment2Outcome }

/-! ### Helper lemmas -/

/-- Decoding inverts encoding on a single hex digit. -/
theorem hexDigitVal_hexDigit : ∀ n < 16, hexDigitVal (hexDigit n) = some n := by
  decide

/-- `bytes.fromhex` inverts `bytes.hex()` on any byte sequence. -/
theorem hexToBytes_bytesToHex :
    ∀ bs : List Nat, (∀ b ∈ bs, b < 256) → hexToBytes (bytesToHex bs) = some bs := by
  intro bs
  induction bs with
  | nil => intro _; rfl
  | cons b rest ih =>
    intro h
    have hb : b < 256 := h b (List.mem_cons_self b rest)
    have hrest := ih fun x hx => h x (List.mem_cons_of_mem b hx)
    have e1 := hexDigitVal_hexDigit (b / 16) (by omega)
    have e2 := hexDigitVal_hexDigit (b % 16) (by omega)
    show hexToBytes (hexDigit (b / 16) :: hexDigit (b % 16) :: bytesToHex rest) = _
    rw [hexToBytes, e1, e2, hrest]
    show some ((16 * (b / 16) + b % 16) :: rest) = some (b :: rest)
    have hb16 : 16 * (b / 16) + b % 16 = b := by omega
    rw [hb16]

/-- Inversion of a successful amount conversion. -/
theorem xrp_to_drops_ok_iff (x : ℚ) (d : Int) :
    xrp_to_drops x = .ok d ↔
      (¬x < 0 ∧ ¬MAX_XRP < x ∧ (x * DROPS_PER_XRP).den = 1 ∧
        (x * DROPS_PER_XRP).num = d) := by
  unfold xrp_to_drops
  split_ifs with h0 h1 h2 <;> simp_all

/-- Concrete conversion used by the flow's escrow step: 50 XRP. -/
theorem xrp_to_drops_50 : xrp_to_drops 50 = .ok 50000000 := by
  rw [xrp_to_drops_ok_iff]
  refine ⟨by norm_num, by norm_num [MAX_XRP], ?_, ?_⟩ <;>
    norm_num [DROPS_PER_XRP]

/-- Concrete conversion used by the flow's first payment: 25 XRP. -/
theorem xrp_to_drops_25 : xrp_to_drops 25 = .ok 25000000 := by
  rw [xrp_to_drops_ok_iff]
  refine ⟨by norm_num, by norm_num [MAX_XRP], ?_, ?_⟩ <;>
    norm_num [DROPS_PER_XRP]

/-- A common string prefix cancels on the left. -/
theorem string_append_left_cancel (p a b : String) (h : p ++ a = p ++ b) :
    a = b := by
  apply String.ext
  have hd := congrArg String.data h
  rw [String.data_append, String.data_append] at hd
  exact List.append_cancel_left hd

/-! ### Claim theorems -/

/-- C3 (counterexample): with `days_until_release = 0` and a valid amount,
`create_escrow`'s construction phase does not fail — it produces a complete
escrow operation object (whose `finish_after` equals the submission time in
ledger terms) and proceeds to submission; no `InvalidDelay` failure exists. -/
theorem zero_delay_builds_escrow_cex :
    buildEscrow "rOwner" "rGC" 50 1760000000 0 [] =
      .ok { account := "rOwner", destination := "rGC", amount := 50000000,
            finish_after := 813315200, memos := none } := by
  unfold buildEscrow
  rw [xrp_to_drops_50]
  rfl

/-- C3 (amended): `create_escrow` performs no validation of the release
delay. For every delay — zero and negative included — as soon as the amount
converts, it builds the escrow operation with
`finish_after = t + d·86400 − RIPPLE_EPOCH`; when the delay is ≤ 0 that
release timestamp is at or before the submission time instead of strictly in
the future. -/
theorem escrow_no_delay_validation (acc dst : String) (x : ℚ) (t d : Int)
    (m : List Nat) (dr : Int) (h : xrp_to_drops x = .ok dr) :
    buildEscrow acc dst x t d m =
      .ok { account := acc, destination := dst, amount := dr,
            finish_after := finishAfter t d, memos := escrowMemos m } ∧
    (d ≤ 0 → finishAfter t d + RIPPLE_EPOCH ≤ t) := by
  constructor
  · unfold buildEscrow
    rw [h]
  · intro hd
    unfold finishAfter RIPPLE_EPOCH
    omega

/-- Witness for `escrow_no_delay_validation` at delay 0 and amount 50. -/
theorem escrow_no_delay_validation_witness :
    buildEscrow "rO" "rG" 50 1700000000 0 [104] =
      .ok { account := "rO", destination := "rG", amount := 50000000,
            finish_after := finishAfter 1700000000 0, memos := escrowMemos [104] } ∧
    finishAfter 1700000000 0 + RIPPLE_EPOCH ≤ 1700000000 := by
  have h := escrow_no_delay_validation "rO" "rG" 50 1700000000 0 [104] 50000000
    xrp_to_drops_50
  exact ⟨h.1, h.2 (by decide)⟩

/-- C4 (counterexample): wallet creation logs the signing seed — two
`create_wallet` runs differing only in the seed produce different console
output, and the seed appears verbatim in the log. -/
theorem wallet_log_reveals_seed_cex :
    create_wallet_log "Owner Wallet" "rOwnerAddr" "sSeedAAA" ≠
      create_wallet_log "Owner Wallet" "rOwnerAddr" "sSeedBBB" ∧
    "   Seed: sSeedAAA" ∈ create_wallet_log "Owner Wallet" "rOwnerAddr" "sSeedAAA" := by
  decide

/-- C4 (amended): `create_wallet` prints the wallet's seed: its output
contains the line `"   Seed: " ++ seed`, and the logged output determines
the seed (so runs differing only in the seed log differently — the script
does not keep seeds out of its console output). -/
theorem wallet_log_contains_seed (label addr seed : String) :
    ("   Seed: " ++ seed) ∈ create_wallet_log label addr seed ∧
    ∀ seed2, create_wallet_log label addr seed = create_wallet_log label addr seed2 →
      seed = seed2 := by
  constructor
  · show _ ∈ [_, _, _, _]
    simp [create_wallet_log]
  · intro seed2 h
    have h3 : "   Seed: " ++ seed = "   Seed: " ++ seed2 := by
      have := congrArg (fun l => l.get? 2) h
      simpa [create_wallet_log] using this
    exact string_append_left_cancel _ _ _ h3

/-- Witness for `wallet_log_contains_seed` at a concrete seed. -/
theorem wallet_log_contains_seed_witness :
    ("   Seed: " ++ "sEdAA") ∈ create_wallet_log "W" "rA" "sEdAA" ∧
    ("sEdAA" : String) = "sEdAA" := by
  refine ⟨(wallet_log_contains_seed "W" "rA" "sEdAA").1, ?_⟩
  exact (wallet_log_contains_seed "W" "rA" "sEdAA").2 "sEdAA" rfl

/-- C6: for every positive release delay `d` in days, the escrow operation
built at submission time `t` carries `finish_after` denoting, in the Ripple
epoch, exactly `t + d` days: `finish_after + RIPPLE_EPOCH = t + d·86400`. -/
theorem escrow_release_timestamp (acc dst : String) (x : ℚ) (t d : Int)
    (m : List Nat) (_hd : 0 < d) :
    ∀ etx, buildEscrow acc dst x t d m = .ok etx →
      etx.finish_after + RIPPLE_EPOCH = t + d * 86400 := by
  intro etx he
  unfold buildEscrow at he
  cases hx : xrp_to_drops x with
  | error e => rw [hx] at he; cases he
  | ok dr =>
    rw [hx] at he
    cases he
    show finishAfter t d + RIPPLE_EPOCH = t + d * 86400
    unfold finishAfter RIPPLE_EPOCH
    ring

/-- Witness for `escrow_release_timestamp`: the flow's escrow (50 XRP,
7 days) at a concrete submission time. -/
theorem escrow_release_timestamp_witness :
    buildEscrow "rO" "rG" 50 1760000000 7 [] =
      .ok { account := "rO", destination := "rG", amount := 50000000,
            finish_after := finishAfter 1760000000 7, memos := none } ∧
    finishAfter 1760000000 7 + RIPPLE_EPOCH = 1760000000 + 7 * 86400 := by
  have hb : buildEscrow "rO" "rG" 50 1760000000 7 [] =
      .ok { account := "rO", destination := "rG", amount := 50000000,
            finish_after := finishAfter 1760000000 7, memos := none } := by
    unfold buildEscrow
    rw [xrp_to_drops_50]
    rfl
  exact ⟨hb, escrow_release_timestamp "rO" "rG" 50 1760000000 7 [] (by decide) _ hb⟩

/-- C8: when funding grants the owner 1000 XRP and the escrow (50), the
owner-to-GC payment (25) and the GC-to-subcontractor payment (10) all
commit, the flow completes and the final snapshotted balances are
owner = 925, GC = 15, subcontractor = 10 (fees not modelled, per the
scenario). -/
theorem milestone_flow_final_balances :
    (simulate_construction_payment_flow
        ⟨true, 1000, .committed, .committed, .committed⟩).completed = true ∧
    (simulate_construction_payment_flow
        ⟨true, 1000, .committed, .committed, .committed⟩).finalBalances =
      some { owner := 925, gc := 15, sub := 10 } := by
  decide

/-- C5 (counterexample): with an empty memo no memo slot is stored at all —
`send_payment` and `create_escrow` attach no memo, so there is no stored
`MemoData`/`MemoType` whose decoding could recover the empty memo and its
category tag. -/
theorem empty_memo_has_no_slot_cex :
    paymentMemos [] = none ∧ escrowMemos [] = none ∧
    ¬∃ slot, paymentMemos [] = some slot := by
  refine ⟨rfl, rfl, ?_⟩
  rintro ⟨slot, h⟩
  simp [paymentMemos] at h

/-- C5 (amended): for every non-empty memo byte sequence, the encoding into
the memo slot is lossless — decoding the stored `MemoData` recovers the memo
bytes exactly, and decoding `MemoType` recovers the fixed category tag
(`"construction-payment"` for payments, `"construction-escrow"` for
escrows). With an empty memo no slot is stored (see the counterexample), so
the round trip holds only for non-empty memos. -/
theorem memo_round_trip (bs : List Nat) (hne : bs ≠ [])
    (hwf : ∀ b ∈ bs, b < 256) :
    paymentMemos bs =
      some ⟨bytesToHex bs, bytesToHex (strBytes "construction-payment")⟩ ∧
    escrowMemos bs =
      some ⟨bytesToHex bs, bytesToHex (strBytes "construction-escrow")⟩ ∧
    hexToBytes (bytesToHex bs) = some bs ∧
    hexToBytes (bytesToHex (strBytes "construction-payment")) =
      some (strBytes "construction-payment") ∧
    hexToBytes (bytesToHex (strBytes "construction-escrow")) =
      some (strBytes "construction-escrow") := by
  refine ⟨?_, ?_, hexToBytes_bytesToHex bs hwf, ?_, ?_⟩
  · unfold paymentMemos
    rw [if_neg hne]
  · unfold escrowMemos
    rw [if_neg hne]
  · exact hexToBytes_bytesToHex _ (by decide)
  · exact hexToBytes_bytesToHex _ (by decide)

/-- Witness for `memo_round_trip` on the two-byte memo `"hi"` (bytes
104, 105). -/
theorem memo_round_trip_witness :
    paymentMemos [104, 105] =
      some ⟨bytesToHex [104, 105], bytesToHex (strBytes "construction-payment")⟩ ∧
    hexToBytes (bytesToHex [104, 105]) = some [104, 105] ∧
    bytesToHex [104, 105] = ['6', '8', '6', '9'] := by
  have h := memo_round_trip [104, 105] (by decide) (by decide)
  exact ⟨h.1, h.2.2.1, by decide⟩

/-- C9: a payment or escrow built with an empty memo carries no memo field
at all — the fixed category tag is omitted with it — and a non-empty memo
always yields a memo slot carrying the tag: the built transaction's `memos`
is `none` exactly when the memo is empty. -/
theorem memo_omitted_iff_empty (acc dst : String) (x : ℚ) (t days : Int)
    (bs : List Nat) :
    (∀ ptx, buildPayment acc dst x bs = .ok ptx → (ptx.memos = none ↔ bs = [])) ∧
    (∀ etx, buildEscrow acc dst x t days bs = .ok etx →
      (etx.memos = none ↔ bs = [])) ∧
    (bs ≠ [] →
      paymentMemos bs =
        some ⟨bytesToHex bs, bytesToHex (strBytes "construction-payment")⟩ ∧
      escrowMemos bs =
        some ⟨bytesToHex bs, bytesToHex (strBytes "construction-escrow")⟩) := by
  have hp : paymentMemos bs = none ↔ bs = [] := by
    unfold paymentMemos
    split_ifs with h <;> simp [h]
  have he : escrowMemos bs = none ↔ bs = [] := by
    unfold escrowMemos
    split_ifs with h <;> simp [h]
  refine ⟨?_, ?_, ?_⟩
  · intro ptx hb
    unfold buildPayment at hb
    cases hx : xrp_to_drops x with
    | error e => rw [hx] at hb; cases hb
    | ok dr => rw [hx] at hb; cases hb; exact hp
  · intro etx hb
    unfold buildEscrow at hb
    cases hx : xrp_to_drops x with
    | error e => rw [hx] at hb; cases hb
    | ok dr => rw [hx] at hb; cases hb; exact he
  · intro hne
    constructor
    · unfold paymentMemos
      rw [if_neg hne]
    · unfold escrowMemos
      rw [if_neg hne]

/-- Witness for `memo_omitted_iff_empty`: the payment built with an empty
memo has `memos = none`; with memo byte 112 a tagged slot is attached. -/
theorem memo_omitted_iff_empty_witness :
    buildPayment "rA" "rB" 50 [] =
      .ok { account := "rA", destination := "rB", amount := 50000000,
            memos := none } ∧
    (none = (none : Option Memo) ↔ ([] : List Nat) = []) ∧
    paymentMemos [112] =
      some ⟨bytesToHex [112], bytesToHex (strBytes "construction-payment")⟩ := by
  have hb : buildPayment "rA" "rB" 50 [] =
      .ok { account := "rA", destination := "rB", amount := 50000000,
            memos := none } := by
    unfold buildPayment
    rw [xrp_to_drops_50]
    rfl
  have h := memo_omitted_iff_empty "rA" "rB" 50 0 0 ([] : List Nat)
  have h2 := memo_omitted_iff_empty "rA" "rB" 50 0 0 [112]
  refine ⟨hb, ?_, (h2.2.2 (by decide)).1⟩
  simp [(h.1 _ hb)]

/-- C7: for every positive amount, the payment transaction and the escrow
transaction built from it carry the identical serialized amount — both the
exact minor-unit (drops) integer `amount · 10^6`, with no precision loss. -/
theorem payment_escrow_amounts_agree (acc dst1 dst2 : String) (x : ℚ)
    (t days : Int) (m1 m2 : List Nat) (_hx : 0 < x) :
    ∀ ptx etx, buildPayment acc dst1 x m1 = .ok ptx →
      buildEscrow acc dst2 x t days m2 = .ok etx →
      ptx.amount = etx.amount ∧ (ptx.amount : ℚ) = x * DROPS_PER_XRP := by
  intro ptx etx hp he
  unfold buildPayment at hp
  unfold buildEscrow at he
  cases hc : xrp_to_drops x with
  | error e => rw [hc] at hp; cases hp
  | ok dr =>
    rw [hc] at hp he
    cases hp
    cases he
    refine ⟨rfl, ?_⟩
    obtain ⟨-, -, hden, hnum⟩ := (xrp_to_drops_ok_iff x dr).mp hc
    show ((dr : Int) : ℚ) = x * DROPS_PER_XRP
    rw [← hnum]
    exact Rat.coe_int_num_of_den_eq_one hden

/-- Witness for `payment_escrow_amounts_agree` at 50 XRP: both serialized
amounts are 50000000 drops. -/
theorem payment_escrow_amounts_agree_witness :
    buildPayment "rA" "rB" 50 [] =
      .ok { account := "rA", destination := "rB", amount := 50000000,
            memos := none } ∧
    buildEscrow "rA" "rC" 50 1760000000 7 [] =
      .ok { account := "rA", destination := "rC", amount := 50000000,
            finish_after := finishAfter 1760000000 7, memos := none } ∧
    (50000000 : Int) = 50000000 ∧ ((50000000 : Int) : ℚ) = 50 * DROPS_PER_XRP := by
  have hp : buildPayment "rA" "rB" 50 [] =
      .ok { account := "rA", destination := "rB", amount := 50000000,
            memos := none } := by
    unfold buildPayment
    rw [xrp_to_drops_50]
    rfl
  have he : buildEscrow "rA" "rC" 50 1760000000 7 [] =
      .ok { account := "rA", destination := "rC", amount := 50000000,
            finish_after := finishAfter 1760000000 7, memos := none } := by
    unfold buildEscrow
    rw [xrp_to_drops_50]
    rfl
  have h := payment_escrow_amounts_agree "rA" "rB" "rC" 50 1760000000 7 [] []
    (by norm_num) _ _ hp he
  exact ⟨hp, he, h.1, h.2⟩

/-- C10 (counterexample): `send_payment` is not total at its public
interface — the amount conversion runs before the `try` block, so a negative
amount raises to the caller; and with a `tesSUCCESS` outcome but a raising
balance query inside the `try` block it returns `None` despite the success
code. -/
theorem construction_error_escapes_cex :
    send_payment "rA" "rB" (-1) [] ⟨.response "tesSUCCESS" "H", false⟩ =
      .error .negativeXRP ∧
    send_payment "rA" "rB" 25 [] ⟨.response "tesSUCCESS" "H", true⟩ =
      .ok none := by
  constructor
  · have hneg : xrp_to_drops (-1) = .error .negativeXRP := by
      unfold xrp_to_drops
      rw [if_pos (by norm_num)]
    unfold send_payment buildPayment
    rw [hneg]
  · unfold send_payment buildPayment
    rw [xrp_to_drops_25]
    rfl

/-- C10 (amended): exceptions raised during submission or finality waiting
are caught, and the caught cases return `None`; but transaction construction
(the amount conversion) runs before the `try` block, so its exceptions
escape to the caller. Given a convertible amount, `create_escrow` returns
the hash exactly when the outcome code is `tesSUCCESS`, while `send_payment`
returns the hash exactly when the outcome is `tesSUCCESS` and the balance
query it makes afterwards (still inside `try`) does not raise — a raising
balance query turns a committed payment into a `None` return. -/
theorem submit_exception_handling (acc dst : String) (x : ℚ) (m : List Nat)
    (t days : Int) (env : NetEnv) :
    (∀ e, xrp_to_drops x = .error e →
      send_payment acc dst x m env = .error e ∧
      create_escrow acc dst x t days m env = .error e) ∧
    (∀ dr, xrp_to_drops x = .ok dr →
      send_payment acc dst x m env = .ok (paymentReturn env) ∧
      create_escrow acc dst x t days m env = .ok (escrowReturn env.submit)) ∧
    (paymentReturn env).isSome =
      (env.submit.isTesSuccess && !env.balanceRaises) ∧
    (escrowReturn env.submit).isSome = env.submit.isTesSuccess := by
  refine ⟨?_, ?_, ?_, ?_⟩
  · intro e he
    constructor
    · unfold send_payment buildPayment
      rw [he]
    · unfold create_escrow buildEscrow
      rw [he]
  · intro dr hdr
    constructor
    · unfold send_payment buildPayment
      rw [hdr]
      rfl
    · unfold create_escrow buildEscrow
      rw [hdr]
      rfl
  · obtain ⟨sub, br⟩ := env
    cases sub with
    | raised => cases br <;> rfl
    | response res h =>
      by_cases hres : res = "tesSUCCESS" <;>
        cases br <;>
        simp [paymentReturn, SubmitResult.isTesSuccess, hres]
  · cases hs : env.submit with
    | raised => rfl
    | response res h =>
      by_cases hres : res = "tesSUCCESS" <;>
        simp [escrowReturn, SubmitResult.isTesSuccess, hres]

/-- Witness for `submit_exception_handling`: a committed 25-XRP payment and
escrow with a non-raising balance query return the hash. -/
theorem submit_exception_handling_witness :
    send_payment "rA" "rB" 25 [] ⟨.response "tesSUCCESS" "H", false⟩ =
      .ok (some "H") ∧
    create_escrow "rA" "rB" 25 1760000000 7 []
        ⟨.response "tesSUCCESS" "H", false⟩ = .ok (some "H") := by
  have h := (submit_exception_handling "rA" "rB" 25 [] 1760000000 7
    ⟨.response "tesSUCCESS" "H", false⟩).2.1 25000000 xrp_to_drops_25
  exact ⟨h.1, h.2⟩

/-- C1 (counterexample): with a committed escrow, a failed first payment
(owner to GC) and a committing network, the flow still executes — and
commits — the second payment (GC to subcontractor): a failed payment step
does not prevent later payment steps from running. -/
theorem payment_failure_does_not_stop_flow_cex :
    (simulate_construction_payment_flow
        ⟨true, 1000, .committed, .rejected, .committed⟩).payment1Result = none ∧
    (simulate_construction_payment_flow
        ⟨true, 1000, .committed, .rejected, .committed⟩).payment2Executed = true ∧
    (simulate_construction_payment_flow
        ⟨true, 1000, .committed, .rejected, .committed⟩).payment2Result = some () := by
  decide

/-- C1 (amended): only a funding failure or a failed escrow creation abort
the flow before later steps (with no balances reported); once the escrow
step returns a hash, both payment steps execute unconditionally — a failed
direct payment is recorded as `None` but does not prevent the following
payment step from running. -/
theorem flow_abort_structure (env : FlowEnv) :
    (env.fundOk = false →
      (simulate_construction_payment_flow env).escrowExecuted = false ∧
      (simulate_construction_payment_flow env).payment1Executed = false ∧
      (simulate_construction_payment_flow env).payment2Executed = false) ∧
    ((simulate_construction_payment_flow env).escrowResult = none →
      (simulate_construction_payment_flow env).payment1Executed = false ∧
      (simulate_construction_payment_flow env).payment2Executed = false ∧
      (simulate_construction_payment_flow env).finalBalances = none) ∧
    ((simulate_construction_payment_flow env).payment1Executed = true →
      (simulate_construction_payment_flow env).payment2Executed = true ∧
      (simulate_construction_payment_flow env).payment2Result =
        observe env.payment2Outcome) := by
  obtain ⟨fundOk, fund, eo, p1, p2⟩ := env
  cases fundOk <;> cases eo <;> cases p1 <;> cases p2 <;>
    simp [simulate_construction_payment_flow, observe]

/-- Witness for `flow_abort_structure`: a rejected escrow aborts the flow
before either payment step. -/
theorem flow_abort_structure_witness :
    (simulate_construction_payment_flow
        ⟨true, 1000, .rejected, .committed, .committed⟩).escrowResult = none ∧
    (simulate_construction_payment_flow
        ⟨true, 1000, .rejected, .committed, .committed⟩).payment1Executed = false ∧
    (simulate_construction_payment_flow
        ⟨true, 1000, .rejected, .committed, .committed⟩).payment2Executed = false ∧
    (simulate_construction_payment_flow
        ⟨true, 1000, .rejected, .committed, .committed⟩).finalBalances = none := by
  have h := (flow_abort_structure ⟨true, 1000, .rejected, .committed, .committed⟩).2.1
    (by decide)
  exact ⟨by decide, h.1, h.2.1, h.2.2⟩

/-- C2 (counterexample): an indeterminate first-payment outcome (exception
during submission or finality waiting) is handled exactly like a hard
rejection — the whole trace is identical, so the indeterminate outcome is
not surfaced distinctly — and the dependent second payment still executes
after the indeterminate predecessor. -/
theorem indeterminate_not_distinct_cex :
    simulate_construction_payment_flow
        ⟨true, 1000, .committed, .indeterminate, .committed⟩ =
      simulate_construction_payment_flow
        ⟨true, 1000, .committed, .rejected, .committed⟩ ∧
    (simulate_construction_payment_flow
        ⟨true, 1000, .committed, .indeterminate, .committed⟩).payment2Executed =
      true := by
  decide

/-- C2 (amended): the flow collapses indeterminate outcomes into hard
rejections — replacing every indeterminate step outcome by a rejection
leaves the entire trace unchanged, so nothing is surfaced distinctly. An
indeterminate escrow creation does abort the plan (exactly as a rejection
does), but an indeterminate first payment does not halt the dependent second
payment: the second payment executes whenever the first does. -/
theorem indeterminate_handling (env : FlowEnv) :
    simulate_construction_payment_flow (collapseEnv env) =
      simulate_construction_payment_flow env ∧
    (env.escrowOutcome = .indeterminate →
      (simulate_construction_payment_flow env).payment1Executed = false ∧
      (simulate_construction_payment_flow env).payment2Executed = false) ∧
    (simulate_construction_payment_flow env).payment2Executed =
      (simulate_construction_payment_flow env).payment1Executed := by
  obtain ⟨fundOk, fund, eo, p1, p2⟩ := env
  cases fundOk <;> cases eo <;> cases p1 <;> cases p2 <;>
    simp [simulate_construction_payment_flow, observe, collapseEnv, collapseOutcome]

/-- Witness for `indeterminate_handling`: an indeterminate escrow outcome
aborts the flow before both payments, and collapsing it to a rejection
changes nothing. -/
theorem indeterminate_handling_witness :
    simulate_construction_payment_flow
        (collapseEnv ⟨true, 1000, .indeterminate, .committed, .committed⟩) =
      simulate_construction_payment_flow
        ⟨true, 1000, .indeterminate, .committed, .committed⟩ ∧
    (simulate_construction_payment_flow
        ⟨true, 1000, .indeterminate, .committed, .committed⟩).payment1Executed =
      false ∧
    (simulate_construction_payment_flow
        ⟨true, 1000, .indeterminate, .committed, .committed⟩).payment2Executed =
      false := by
  have h := indeterminate_handling ⟨true, 1000, .indeterminate, .committed, .committed⟩
  exact ⟨h.1, (h.2.1 rfl).1, (h.2.1 rfl).2⟩

end XRPSim
